import Mathlib

/-!
Verification development for the cross-venue arbitrage monitor `main2.py`.

The program polls two exchange pages (MEXC and LBank) for order-book prices,
computes the two directional cross-venue price differences, selects one
direction, and prints a deduplicated alert when the percentage divergence of
the selected direction exceeds 1.5%.

We embed the loop body shallowly over exact rationals `ℚ` (Python floats are
modelled as exact rationals; a separate `PyFloat` model below additionally
captures Python's non-finite float values NaN/inf for the claims that concern
them).  The browser reads are modelled as lists of `Option ℚ` (a `none` is a
read that raised an exception); the printed console output of one loop
iteration is a list of `Event`s; the mutable dedup variable `old_text` is an
`Option AlertText` (`none` models the initial empty string `""`, which never
equals a rendered alert text).
-/

namespace Arbitrage

/-- One scan loop of `main2.py` (lines 38-44, 55-61, 64-70): the Python code
runs `for i in range(1,20)` inside a single `try`, overwriting the field
variable (`data_last_*`) on every successful read; the first read that raises
aborts the whole `for` (the exception is swallowed by the enclosing
`except: pass`), so the field keeps the value of the last successful read
before the first failure.  `rs` is the sequence of read outcomes
(`none` = the read raised), `last` is the current value of the field variable
(initially the `0` sentinel from lines 31-36). -/
def scanField : List (Option ℚ) → ℚ → ℚ
  | [], last => last
  | Option.none :: _, last => last
  | Option.some v :: rest, _ => scanField rest v

/-- Line 87 / 107 subterm `(data1 + data2) / 2`, the divisor of the
percentage computation. -/
def divisor_midpoint (data1 data2 : ℚ) : ℚ := (data1 + data2) / 2

/-- Line 86 / 106: `diff_absolute = abs(data1 - data2)`. -/
def diff_absolute (data1 data2 : ℚ) : ℚ := |data1 - data2|

/-- Line 87 / 107: `diff_percent = diff_absolute / ((data1 + data2) / 2) * 100`. -/
def diff_percent (data1 data2 : ℚ) : ℚ :=
  diff_absolute data1 data2 / divisor_midpoint data1 data2 * 100

/-- The dedup key of an alert: the rendered `new_text` string of lines 89-92 /
109-112 minus the timestamp (the timestamp is appended only at `print` time,
line 94 / 114).  Two such Python strings are equal iff the branch (the two
branches use different colour layouts), `data1`, `data2` (printed via full
float repr) and the two formatted differences agree; the latter two are
functions of `data1` and `data2`, so this structure models string equality of
`new_text` exactly. -/
structure AlertText where
  isDir1 : Bool
  data1 : ℚ
  data2 : ℚ
  diffAbs : ℚ
  diffPct : ℚ
deriving DecidableEq, Repr

/-- The rendered alert text produced by the branch `b` at prices
`(data1, data2)`. -/
def mkText (b : Bool) (data1 data2 : ℚ) : AlertText :=
  ⟨b, data1, data2, diff_absolute data1 data2, diff_percent data1 data2⟩

/-- Console output of one loop iteration: an emitted alert line
(`print(new_text + Time...)`, carrying the timestamp `ts` appended at print
time) or the diagnostic `print(e)` of an `except` handler (line 97 / 117). -/
inductive Event where
  | alert : AlertText → ℕ → Event
  | diag : Event
deriving DecidableEq, Repr

/-- The body of the `try` at lines 83-87 / 103-107 up to the point where an
exception can be raised: computing `diff_percent` raises `ZeroDivisionError`
exactly when the divisor `(data1 + data2) / 2` is zero; otherwise it returns
`diff_absolute` and `diff_percent`.  The `Except` layer models Python's raised
exception before the handler catches it. -/
def computeBranchExc (data1 data2 : ℚ) : Except Unit (ℚ × ℚ) :=
  if divisor_midpoint data1 data2 = 0 then Except.error ()
  else Except.ok (diff_absolute data1 data2, diff_percent data1 data2)

/-- One direction branch of the loop body (lines 83-98 for direction 1 with
`b = true`, lines 103-118 for direction 2 with `b = false`): compute the
differences (catching the exception as `print(e); pass`, which leaves
`old_text` unchanged), test `diff_percent > 1.5`, build `new_text`, and if
`old_text != new_text` print the alert (with timestamp `ts`) and update
`old_text`. -/
def alertBranch (b : Bool) (data1 data2 : ℚ) (ts : ℕ) (old : Option AlertText) :
    Option AlertText × List Event :=
  match computeBranchExc data1 data2 with
  | Except.error _ => (old, [Event.diag])
  | Except.ok (dAbs, dPct) =>
    if 3/2 < dPct then
      if old ≠ some (⟨b, data1, data2, dAbs, dPct⟩ : AlertText) then
        (some (⟨b, data1, data2, dAbs, dPct⟩ : AlertText),
          [Event.alert ⟨b, data1, data2, dAbs, dPct⟩ ts])
      else (old, [])
    else (old, [])

/-- One iteration of the `while True` loop after the four fields have been
extracted (lines 77-118): compute
`mex_buy_and_lbnak_sell = abs(data_last_buy_mexc - data_last_sell_lbank)` and
`lbank_buy_and_mex_sell = abs(data_last_sell_mexc - data_last_buy_lbank)`;
if the former is strictly smaller run the direction-1 branch on
`(data_last_buy_mexc, data_last_sell_lbank)`, otherwise (including ties) run
the direction-2 branch on `(data_last_sell_mexc, data_last_buy_lbank)`.
Returns the new `old_text` and the console output of the iteration. -/
def tick (data_last_sell_mexc data_last_buy_mexc data_last_sell_lbank
    data_last_buy_lbank : ℚ) (ts : ℕ) (old : Option AlertText) :
    Option AlertText × List Event :=
  let mex_buy_and_lbnak_sell := |data_last_buy_mexc - data_last_sell_lbank|
  let lbank_buy_and_mex_sell := |data_last_sell_mexc - data_last_buy_lbank|
  if mex_buy_and_lbnak_sell < lbank_buy_and_mex_sell then
    alertBranch true data_last_buy_mexc data_last_sell_lbank ts old
  else
    alertBranch false data_last_sell_mexc data_last_buy_lbank ts old

/-!
A refinement of the numeric domain for the claims about non-finite inputs:
Python floats including the non-finite values `nan`, `inf` and `-inf`.
Finite values are carried as exact rationals (rounding is irrelevant here:
every operation of the branch with at least one non-finite operand is exact).
The operation definitions transcribe Python float semantics: arithmetic on
non-finite operands follows IEEE-754 (`inf + (-inf) = nan`, `inf / inf = nan`,
`nan` propagates), any comparison with `nan` is false, and division by a
(finite) zero raises `ZeroDivisionError` instead of returning a value.
-/

inductive PyFloat where
  | fin : ℚ → PyFloat
  | inf : PyFloat
  | ninf : PyFloat
  | nan : PyFloat
deriving DecidableEq, Repr

/-- Whether a `PyFloat` is a finite value. -/
def PyFloat.isFinite : PyFloat → Bool
  | .fin _ => true
  | _ => false

/-- Python float addition. -/
def pyAdd : PyFloat → PyFloat → PyFloat
  | .nan, _ => .nan
  | _, .nan => .nan
  | .fin a, .fin b => .fin (a + b)
  | .fin _, .inf => .inf
  | .inf, .fin _ => .inf
  | .inf, .inf => .inf
  | .fin _, .ninf => .ninf
  | .ninf, .fin _ => .ninf
  | .ninf, .ninf => .ninf
  | .inf, .ninf => .nan
  | .ninf, .inf => .nan

/-- Python float negation. -/
def pyNeg : PyFloat → PyFloat
  | .fin a => .fin (-a)
  | .inf => .ninf
  | .ninf => .inf
  | .nan => .nan

/-- Python float subtraction `x - y`. -/
def pySub (x y : PyFloat) : PyFloat := pyAdd x (pyNeg y)

/-- Python `abs`. -/
def pyAbs : PyFloat → PyFloat
  | .fin a => .fin |a|
  | .inf => .inf
  | .ninf => .inf
  | .nan => .nan

/-- Python float division `x / 2` (the divisor `2` is nonzero, so this never
raises). -/
def pyHalf : PyFloat → PyFloat
  | .fin a => .fin (a / 2)
  | .inf => .inf
  | .ninf => .ninf
  | .nan => .nan

/-- Python float multiplication `x * 100`. -/
def pyMul100 : PyFloat → PyFloat
  | .fin a => .fin (a * 100)
  | .inf => .inf
  | .ninf => .ninf
  | .nan => .nan

/-- Python float division `x / y`: raises `ZeroDivisionError` (`.error ()`)
exactly when the divisor is a (finite) zero, regardless of the dividend;
otherwise follows IEEE-754 (`nan` propagates, `inf / inf = nan`,
`finite / inf = 0`, `inf / q = ±inf` by the sign of `q`). -/
def pyDiv (x y : PyFloat) : Except Unit PyFloat :=
  match y with
  | .fin q =>
    if q = 0 then Except.error ()
    else Except.ok (match x with
      | .fin p => .fin (p / q)
      | .inf => if 0 < q then .inf else .ninf
      | .ninf => if 0 < q then .ninf else .inf
      | .nan => .nan)
  | .inf => Except.ok (match x with
      | .fin _ => .fin 0
      | _ => .nan)
  | .ninf => Except.ok (match x with
      | .fin _ => .fin 0
      | _ => .nan)
  | .nan => Except.ok .nan

/-- Python `x > 1.5` on floats: false whenever `x` is `nan`. -/
def pyGtThreshold : PyFloat → Bool
  | .fin q => decide (3/2 < q)
  | .inf => true
  | .ninf => false
  | .nan => false

/-- The dedup key over `PyFloat` data, mirroring `AlertText`. -/
structure AlertTextF where
  isDir1 : Bool
  data1 : PyFloat
  data2 : PyFloat
  diffAbs : PyFloat
  diffPct : PyFloat
deriving DecidableEq, Repr

/-- Console events of the `PyFloat` model. -/
inductive EventF where
  | alert : AlertTextF → ℕ → EventF
  | diag : EventF
deriving DecidableEq, Repr

/-- The direction branch of the loop body (lines 83-98 / 103-118) over the
`PyFloat` domain: identical control flow to `alertBranch`, with the numeric
operations given Python float semantics so that non-finite data is covered. -/
def alertBranchF (b : Bool) (data1 data2 : PyFloat) (ts : ℕ)
    (old : Option AlertTextF) : Option AlertTextF × List EventF :=
  let diff_abs := pyAbs (pySub data1 data2)
  match pyDiv diff_abs (pyHalf (pyAdd data1 data2)) with
  | Except.error _ => (old, [EventF.diag])
  | Except.ok q =>
    let dPct := pyMul100 q
    if pyGtThreshold dPct then
      let new_text : AlertTextF := ⟨b, data1, data2, diff_abs, dPct⟩
      if old ≠ some new_text then (some new_text, [EventF.alert new_text ts])
      else (old, [])
    else (old, [])

/-- A direction branch whose candidate is well-defined, above threshold and
different from the stored text emits exactly its rendered text. -/
theorem alertBranch_emit (b : Bool) (d1 d2 : ℚ) (ts : ℕ)
    (old : Option AlertText) (hdvz : divisor_midpoint d1 d2 ≠ 0)
    (hgt : 3 / 2 < diff_percent d1 d2) (hnew : old ≠ some (mkText b d1 d2)) :
    alertBranch b d1 d2 ts old =
      (some (mkText b d1 d2), [Event.alert (mkText b d1 d2) ts]) := by
  rw [show mkText b d1 d2 =
    ⟨b, d1, d2, diff_absolute d1 d2, diff_percent d1 d2⟩ from rfl] at hnew ⊢
  simp [alertBranch, computeBranchExc, hdvz, hgt, hnew]

/-- A direction branch whose candidate is well-defined and above threshold
but equal to the stored text prints nothing and keeps the state. -/
theorem alertBranch_suppress (b : Bool) (d1 d2 : ℚ) (ts : ℕ)
    (hdvz : divisor_midpoint d1 d2 ≠ 0) (hgt : 3 / 2 < diff_percent d1 d2) :
    alertBranch b d1 d2 ts (some (mkText b d1 d2)) =
      (some (mkText b d1 d2), []) := by
  simp [alertBranch, computeBranchExc, hdvz, hgt, mkText]

/-- Any alert event in the output of a direction branch was produced by the
emit path, so its text's percentage field exceeds the threshold. -/
theorem alertBranch_mem_alert_pct {b : Bool} {d1 d2 : ℚ} {ts t : ℕ}
    {old : Option AlertText} {m : AlertText}
    (hmem : Event.alert m t ∈ (alertBranch b d1 d2 ts old).2) :
    3 / 2 < m.diffPct := by
  unfold alertBranch at hmem
  split at hmem
  · simp at hmem
  · split at hmem
    · split at hmem
      · rename_i dPair hgt hne
        simp at hmem
        rcases hmem with ⟨hm, -⟩
        rw [hm]
        exact hgt
      · simp at hmem
    · simp at hmem

/-- Claim C1 (code bug): the code has no guard discarding a candidate whose
selected-direction price is non-positive.  With
`data_last_sell_mexc = 100`, `data_last_buy_mexc = 0`,
`data_last_sell_lbank = 5`, `data_last_buy_lbank = 0` the direction-1
difference (5) is smaller, direction 1 is selected with the sentinel price
`data1 = 0`, the degenerate percentage is exactly 200%, and an alert IS
emitted — the alert path (threshold, dedup, emission) is fully reached,
contradicting the claimed "no candidate" outcome. -/
theorem C1_sentinel_price_emits_alert :
    tick 100 0 5 0 7 Option.none =
      (some (mkText true 0 5), [Event.alert (mkText true 0 5) 7]) ∧
    (mkText true 0 5).data1 = 0 ∧ (mkText true 0 5).diffPct = 200 := by
  refine ⟨?_, rfl, ?_⟩
  · have hsel : tick 100 0 5 0 7 Option.none = alertBranch true 0 5 7 Option.none := by
      simp only [tick]
      rw [if_pos (by norm_num)]
    rw [hsel]
    exact alertBranch_emit true 0 5 7 Option.none
      (by norm_num [divisor_midpoint])
      (by norm_num [diff_percent, diff_absolute, divisor_midpoint])
      (fun h => Option.noConfusion h)
  · norm_num [mkText, diff_percent, diff_absolute, divisor_midpoint]

/-- Claim C2 (counterexample to the stated tie-break): with all four prices
making the two absolute differences equal (`|100 - 98| = |100 - 98| = 2`),
the loop takes the `else` branch, i.e. direction 2
(sell on MEXC / buy on LBank) — not direction 1 as the claim states: the
produced state records an `isDir1 = false` text and differs from what the
direction-1 branch would have produced. -/
theorem C2_tie_selects_direction2_counterexample :
    |(100:ℚ) - 98| = |(100:ℚ) - 98| ∧
    tick 100 100 98 98 0 Option.none = alertBranch false 100 98 0 Option.none ∧
    (tick 100 100 98 98 0 Option.none).1 = some (mkText false 100 98) ∧
    tick 100 100 98 98 0 Option.none ≠ alertBranch true 100 98 0 Option.none := by
  have hsel : tick 100 100 98 98 0 Option.none =
      alertBranch false 100 98 0 Option.none := by
    simp only [tick]
    rw [if_neg (lt_irrefl _)]
  have hemit2 := alertBranch_emit false 100 98 0 Option.none
    (by norm_num [divisor_midpoint])
    (by norm_num [diff_percent, diff_absolute, divisor_midpoint])
    (fun h => Option.noConfusion h)
  have hemit1 := alertBranch_emit true 100 98 0 Option.none
    (by norm_num [divisor_midpoint])
    (by norm_num [diff_percent, diff_absolute, divisor_midpoint])
    (fun h => Option.noConfusion h)
  refine ⟨rfl, hsel, ?_, ?_⟩
  · rw [hsel, hemit2]
  · rw [hsel, hemit2, hemit1]
    simp [mkText]

/-- Claim C2 (amended): direction selection is deterministic over the four
input prices; with `diff_dir1 = |data_last_buy_mexc - data_last_sell_lbank|`
and `diff_dir2 = |data_last_sell_mexc - data_last_buy_lbank|`, the strictly
smaller difference selects its direction, and on a tie direction 2
(sell on MEXC / buy on LBank) is selected, because the comparison on line 81
is strict (`<`) and ties fall to the `else` branch. -/
theorem C2_direction_selection_amended (sm bm sl bl : ℚ) (ts : ℕ)
    (old : Option AlertText) :
    (|bm - sl| < |sm - bl| → tick sm bm sl bl ts old = alertBranch true bm sl ts old) ∧
    (|sm - bl| < |bm - sl| → tick sm bm sl bl ts old = alertBranch false sm bl ts old) ∧
    (|bm - sl| = |sm - bl| → tick sm bm sl bl ts old = alertBranch false sm bl ts old) := by
  refine ⟨fun h => ?_, fun h => ?_, fun h => ?_⟩
  · simp only [tick]
    rw [if_pos h]
  · simp only [tick]
    rw [if_neg (not_lt.mpr h.le)]
  · simp only [tick]
    rw [if_neg (h ▸ lt_irrefl _)]

/-- Witness for `C2_direction_selection_amended` at a concrete tie. -/
theorem C2_direction_selection_amended_witness :
    |(100:ℚ) - 98| = |(100:ℚ) - 98| ∧
    tick 100 100 98 98 3 Option.none = alertBranch false 100 98 3 Option.none :=
  ⟨rfl, (C2_direction_selection_amended 100 100 98 98 3 Option.none).2.2 rfl⟩

/-- Claim C3: for a selected-direction pair of strictly positive prices, the
computed percentage divergence equals `|p1 - p2| / ((p1 + p2) / 2) * 100`,
and the computation is symmetric under swapping the two prices. -/
theorem C3_pct_formula :
    (∀ p1 p2 : ℚ, diff_percent p1 p2 = diff_percent p2 p1) ∧
    (∀ p1 p2 : ℚ, 0 < p1 → 0 < p2 →
      diff_percent p1 p2 = |p1 - p2| / ((p1 + p2) / 2) * 100) := by
  constructor
  · intro p1 p2
    unfold diff_percent diff_absolute divisor_midpoint
    rw [abs_sub_comm, add_comm]
  · intro p1 p2 _ _
    rfl

/-- Witness for `C3_pct_formula` at the concrete pair `(1, 3)`. -/
theorem C3_pct_formula_witness :
    (0:ℚ) < 1 ∧ (0:ℚ) < 3 ∧
    diff_percent 1 3 = |(1:ℚ) - 3| / (((1:ℚ) + 3) / 2) * 100 ∧
    diff_percent 1 3 = diff_percent 3 1 :=
  ⟨by norm_num, by norm_num, C3_pct_formula.2 1 3 (by norm_num) (by norm_num),
    C3_pct_formula.1 1 3⟩

/-- Claim C4: when the percentage divergence of the (well-defined) candidate
is at most the fixed threshold 1.5, the branch prints nothing and leaves
`old_text` unchanged; conversely any alert in a tick's output carries a
percentage strictly above 1.5. -/
theorem C4_threshold_gate :
    (∀ (b : Bool) (d1 d2 : ℚ) (ts : ℕ) (old : Option AlertText),
        divisor_midpoint d1 d2 ≠ 0 → diff_percent d1 d2 ≤ 3 / 2 →
        alertBranch b d1 d2 ts old = (old, [])) ∧
    (∀ (sm bm sl bl : ℚ) (ts : ℕ) (old : Option AlertText) (m : AlertText)
        (t : ℕ), Event.alert m t ∈ (tick sm bm sl bl ts old).2 →
        3 / 2 < m.diffPct) := by
  constructor
  · intro b d1 d2 ts old hdvz hle
    simp [alertBranch, computeBranchExc, hdvz, not_lt.mpr hle]
  · intro sm bm sl bl ts old m t hmem
    simp only [tick] at hmem
    split at hmem
    · exact alertBranch_mem_alert_pct hmem
    · exact alertBranch_mem_alert_pct hmem

/-- Witness for `C4_threshold_gate` at the concrete equal pair `(100, 100)`. -/
theorem C4_threshold_gate_witness :
    divisor_midpoint 100 100 ≠ 0 ∧ diff_percent 100 100 ≤ 3 / 2 ∧
    alertBranch true 100 100 9 Option.none = (Option.none, []) :=
  ⟨by norm_num [divisor_midpoint],
   by norm_num [diff_percent, diff_absolute, divisor_midpoint],
   C4_threshold_gate.1 true 100 100 9 Option.none
     (by norm_num [divisor_midpoint])
     (by norm_num [diff_percent, diff_absolute, divisor_midpoint])⟩

/-- Claim C5: the dedup gate keys on the rendered text excluding the
timestamp.  Feeding the same above-threshold candidate on two consecutive
ticks (with arbitrary, possibly different timestamps `ts1`, `ts2`) emits
exactly once: the first call prints the alert and stores its text, the
second call prints nothing and leaves the stored text unchanged. -/
theorem C5_dedup_idempotent (b : Bool) (d1 d2 : ℚ) (ts1 ts2 : ℕ)
    (old : Option AlertText) (hdvz : divisor_midpoint d1 d2 ≠ 0)
    (hgt : 3 / 2 < diff_percent d1 d2) (hnew : old ≠ some (mkText b d1 d2)) :
    alertBranch b d1 d2 ts1 old =
      (some (mkText b d1 d2), [Event.alert (mkText b d1 d2) ts1]) ∧
    alertBranch b d1 d2 ts2 (some (mkText b d1 d2)) =
      (some (mkText b d1 d2), []) :=
  ⟨alertBranch_emit b d1 d2 ts1 old hdvz hgt hnew,
   alertBranch_suppress b d1 d2 ts2 hdvz hgt⟩

/-- Witness for `C5_dedup_idempotent` at the concrete pair `(100, 98)`
with distinct timestamps. -/
theorem C5_dedup_idempotent_witness :
    divisor_midpoint 100 98 ≠ 0 ∧ 3 / 2 < diff_percent 100 98 ∧
    Option.none ≠ some (mkText true 100 98) ∧
    alertBranch true 100 98 5 Option.none =
      (some (mkText true 100 98), [Event.alert (mkText true 100 98) 5]) ∧
    alertBranch true 100 98 6 (some (mkText true 100 98)) =
      (some (mkText true 100 98), []) := by
  have h := C5_dedup_idempotent true 100 98 5 6 Option.none
    (by norm_num [divisor_midpoint])
    (by norm_num [diff_percent, diff_absolute, divisor_midpoint])
    (by simp)
  exact ⟨by norm_num [divisor_midpoint],
    by norm_num [diff_percent, diff_absolute, divisor_midpoint],
    by simp, h.1, h.2⟩

/-- Claim C6: end-to-end on the concrete tick
`a_sell = 100, a_buy = 98, b_sell = 103, b_buy = 100`: the direction
differences are 5 and 0, direction 2 is selected, its percentage is 0%, and
the tick emits nothing and leaves the state unchanged — even though
direction 1's divergence (1000/201 ≈ 4.97%) exceeds the 1.5 threshold. -/
theorem C6_scenario3 (ts : ℕ) (old : Option AlertText) :
    |(98:ℚ) - 103| = 5 ∧ |(100:ℚ) - 100| = 0 ∧
    tick 100 98 103 100 ts old = alertBranch false 100 100 ts old ∧
    diff_percent 100 100 = 0 ∧
    tick 100 98 103 100 ts old = (old, []) ∧
    3 / 2 < diff_percent 98 103 := by
  have hsel : tick 100 98 103 100 ts old = alertBranch false 100 100 ts old := by
    simp only [tick]
    rw [if_neg (by norm_num)]
  refine ⟨by norm_num, by norm_num, hsel, ?_, ?_, ?_⟩
  · norm_num [diff_percent, diff_absolute, divisor_midpoint]
  · rw [hsel]
    norm_num [alertBranch, computeBranchExc, diff_percent, diff_absolute,
      divisor_midpoint]
  · norm_num [diff_percent, diff_absolute, divisor_midpoint]

/-- Claim C7: the divisor of the percentage computation, `(p1 + p2) / 2`, is
nonzero whenever both selected-direction prices are strictly positive, so the
division on line 87 / 107 cannot raise `ZeroDivisionError` on valid prices. -/
theorem C7_no_div_by_zero (p1 p2 : ℚ) (h1 : 0 < p1) (h2 : 0 < p2) :
    divisor_midpoint p1 p2 ≠ 0 := by
  unfold divisor_midpoint
  positivity

/-- Witness for `C7_no_div_by_zero` at the concrete pair `(1, 1)`. -/
theorem C7_no_div_by_zero_witness :
    (0:ℚ) < 1 ∧ divisor_midpoint 1 1 ≠ 0 :=
  ⟨by norm_num, C7_no_div_by_zero 1 1 (by norm_num) (by norm_num)⟩

/-- Claim C8: if either selected-direction price is non-finite (`nan` or
`±inf`), the branch emits nothing, prints no diagnostic, and leaves the state
unchanged — the same silent "no candidate" outcome: the degenerate percentage
is `nan` (or the comparison with `nan` is false), so `diff_percent > 1.5`
never holds, and no `ZeroDivisionError` occurs since the divisor is never a
finite zero. -/
theorem C8_nonfinite_no_candidate (b : Bool) (d1 d2 : PyFloat) (ts : ℕ)
    (old : Option AlertTextF)
    (h : PyFloat.isFinite d1 = false ∨ PyFloat.isFinite d2 = false) :
    alertBranchF b d1 d2 ts old = (old, []) := by
  cases d1 <;> cases d2 <;>
    first
      | rfl
      | simp [PyFloat.isFinite] at h

/-- Witness for `C8_nonfinite_no_candidate` at `data1 = inf`, `data2 = 1`. -/
theorem C8_nonfinite_no_candidate_witness :
    (PyFloat.isFinite PyFloat.inf = false ∨
      PyFloat.isFinite (PyFloat.fin 1) = false) ∧
    alertBranchF true PyFloat.inf (PyFloat.fin 1) 0 Option.none =
      (Option.none, []) :=
  ⟨Or.inl rfl,
    C8_nonfinite_no_candidate true PyFloat.inf (PyFloat.fin 1) 0 Option.none
      (Or.inl rfl)⟩

/-- Claim C9: a single bad read never crashes the loop.  First part: a read
that raises during a field's scan is swallowed inside that field's handler —
the reads that would have followed it contribute nothing, and the field still
yields a value.  Second part: when the candidate computation raises
(`ZeroDivisionError`, modelled by `computeBranchExc` returning an error), the
branch handler catches it, prints the diagnostic, and leaves the state
unchanged, so the loop proceeds to the next tick. -/
theorem C9_exceptions_caught :
    (∀ (rs ss : List (Option ℚ)) (acc : ℚ),
        scanField (rs ++ Option.none :: ss) acc = scanField rs acc) ∧
    (∀ (b : Bool) (d1 d2 : ℚ) (ts : ℕ) (old : Option AlertText) (e : Unit),
        computeBranchExc d1 d2 = Except.error e →
        alertBranch b d1 d2 ts old = (old, [Event.diag])) := by
  constructor
  · intro rs ss
    induction rs with
    | nil => intro acc; rfl
    | cons hd tl ih =>
      intro acc
      cases hd with
      | none => rfl
      | some v => exact ih v
  · intro b d1 d2 ts old e heq
    unfold alertBranch
    rw [heq]

/-- Witness for `C9_exceptions_caught`: a failing second read keeps the first
read's value, and the all-zero tick's `ZeroDivisionError` is caught as a
diagnostic. -/
theorem C9_exceptions_caught_witness :
    scanField ([Option.some 1] ++ Option.none :: [Option.some 9]) 0 =
      scanField [Option.some 1] 0 ∧
    computeBranchExc 0 0 = Except.error () ∧
    alertBranch true 0 0 4 Option.none = (Option.none, [Event.diag]) := by
  refine ⟨C9_exceptions_caught.1 [Option.some 1] [Option.some 9] 0, ?_, ?_⟩
  · norm_num [computeBranchExc, divisor_midpoint]
  · exact C9_exceptions_caught.2 true 0 0 4 Option.none ()
      (by norm_num [computeBranchExc, divisor_midpoint])

/-- Claim C10: a scanned field's value after the loop is the parsed price of
the last row successfully read before the first failing read (the 0 sentinel
when the very first read fails), not the first/best row.  First part: the
general characterisation of `scanField` as the last element of the maximal
successful prefix of the reads (defaulting to the incoming sentinel).  Second
part: a scan of 19 identical successful reads of the same row (the constant
`li[1]` XPath of the LBank buy loop) yields that row's parse.  Third part: a
scan whose first read fails keeps the 0 sentinel.  Fourth part: a concrete
scan showing the result is the last pre-failure row, not the first row. -/
theorem C10_scan_last_success :
    (∀ (rs : List (Option ℚ)) (acc : ℚ),
        scanField rs acc =
          ((rs.takeWhile Option.isSome).filterMap id).getLastD acc) ∧
    (∀ v : ℚ, scanField (List.replicate 19 (Option.some v)) 0 = v) ∧
    (∀ rest : List (Option ℚ), scanField (Option.none :: rest) 0 = 0) ∧
    scanField [Option.some 1, Option.some 2, Option.none, Option.some 9] 0 = 2 := by
  refine ⟨?_, fun v => rfl, fun rest => rfl, rfl⟩
  intro rs
  induction rs with
  | nil => intro acc; rfl
  | cons hd tl ih =>
    intro acc
    cases hd with
    | none => rfl
    | some v =>
      rw [show scanField (Option.some v :: tl) acc = scanField tl v from rfl,
        ih v,
        show (Option.some v :: tl).takeWhile Option.isSome =
          Option.some v :: tl.takeWhile Option.isSome from by
            rw [List.takeWhile_cons]; rfl,
        show List.filterMap id (Option.some v :: tl.takeWhile Option.isSome) =
          v :: List.filterMap id (tl.takeWhile Option.isSome) from by
            rw [List.filterMap_cons]; rfl,
        List.getLastD_cons]

end Arbitrage
